import Mathlib

/-!
Verification development for the tiko-essentia-audio-service repository.

The definitions below are a shallow embedding of the resolution-and-staged-
aggregation pipeline: the round-2 gate and track selection of the
POST /api/analyze-artist handler (src/server.js), the preview acquisition
function acquirePreviewForTrack (src/server.js lines 390-684), the genre
mapping helpers (src/server.js lines 1250-1446), the artist_genre_profiles
upsert (src/server.js lines 926-948), the staged/built logic of the batch driver
persistence (src/batch-artist-audio-coverage.js lines 256-388), the legacy
migration (src/unnamed/part_000), and the reconciliation scanner
(src/scripts/essentia_flag_scanner.js).

External collaborators (HTTP providers, the feature extractor) are modelled
as oracle parameters returning Except values, so that a provider failure is
an explicit error value caught exactly where the source has try/catch.
JavaScript numbers appearing only in comparisons are modelled as Nat or as
exact rationals; for the ratios compared here (success counts over at most
ten attempts against the literal 0.4) the IEEE-double comparison of the
source agrees with the exact rational comparison used below.
-/

namespace Essentia

/-- Feature vector fields actually consumed by the artist-level helpers
(calculateAverageFeatures / inferGenresFromTracks in src/server.js). A field
is none when the key is absent from the features object. -/
structure Features where
  energy : Option ℚ
  danceability : Option ℚ
  valence : Option ℚ
  tempo : Option ℚ
  spectralCentroid : Option ℚ
deriving DecidableEq, Repr

/-- A persisted per-track record, as pushed onto trackProfiles in the round
loops of the /api/analyze-artist handler (src/server.js lines 703-716 and
779-792). -/
structure TrackProfile where
  trackId : Nat
  name : String
  artist : String
  popularity : Nat
  isRecentRelease : Bool
  previewUrl : String
  audioSource : Option String
  alternativeSource : Option String
  essentiaFeatures : Features
  analysisRound : Nat
deriving DecidableEq, Repr

/-- Result of buildGenreMapping (src/server.js lines 1250-1292). -/
structure GenreMapping where
  inferredGenres : List String
  source : String
  confidence : ℚ
deriving DecidableEq, Repr

/-- The nested essentiaAudioProfile document written by the batch driver
(src/batch-artist-audio-coverage.js lines 340-350). Only the fields the
claims depend on are modelled; the remaining fields (recentEvolution,
averageFeatures, spectralFeatures, metadata) ride along unchanged with
trackMatrix in every write and are omitted. -/
structure EssentiaProfile where
  trackMatrix : List TrackProfile
  genreMapping : Option GenreMapping
deriving DecidableEq, Repr

/-- An artistGenres document, with the fields read or written by the batch
driver, the migration and the scanner. A missing boolean field is modelled
as false (MongoDB treats an absent flag as falsy and $unset produces the
absent state); a missing non-boolean field is none. -/
structure ArtistDoc where
  docId : Nat
  name : Option String
  spotifyId : Option String
  genres : List String
  essentiaTrackMatrix : Option (List TrackProfile)
  essentiaAudioProfile : Option EssentiaProfile
  essentiaProfileBuilt : Bool
  essentiaProfileStaged : Bool
  essentiaProfileDate : Option Nat
  essentiaVersion : Option String
deriving DecidableEq, Repr

/-! ## Round-2 gate (src/server.js lines 746-754) -/

/-- Embedding of the round-2 gate:
`if (!fastMode && !nearingTimeout && round1SuccessRate >= 0.4 && maxTracks > 10)`
with `nearingTimeout = (Date.now() - startTime) > 22000` and
`round1SuccessRate = round1Success / round1Tracks.length`.
The rate test is the exact-rational rendering of the float comparison; the
JavaScript corner cases of a zero denominator (0/0 is NaN, which compares
false; a positive numerator over zero is Infinity, which compares true) are
reproduced literally. -/
def round2Gate (fastMode : Bool) (elapsedMs round1Success round1Attempted maxTracks : Nat) : Bool :=
  let nearingTimeout : Bool := decide (22000 < elapsedMs)
  let rateOk : Bool :=
    if round1Attempted = 0 then decide (round1Success ≠ 0)
    else decide (2 * round1Attempted ≤ 5 * round1Success)
  !fastMode && !nearingTimeout && rateOk && decide (10 < maxTracks)

/-! ## Persistence of the artist-level aggregate -/

/-- The artist_genre_profiles document shape written by the
/api/analyze-artist handler (src/server.js lines 928-944). Every field of
the document is listed in the $set, so the upsert replaces the stored
content wholesale; the prior document only supplies the identity key. -/
structure ArtistGenreProfileDoc where
  artistName : String
  spotifyId : Option String
  trackMatrix : List TrackProfile
  genreMapping : GenreMapping
  totalTracksAnalyzed : Nat
deriving DecidableEq, Repr

/-- Embedding of the artist_genre_profiles upsert (src/server.js lines
926-948): updateOne with a $set listing every stored field, upsert true. -/
def upsertArtistGenreProfile (prior : Option ArtistGenreProfileDoc)
    (artistName : String) (spotifyId : Option String)
    (profiles : List TrackProfile) (gm : GenreMapping) : ArtistGenreProfileDoc :=
  let _ := prior
  { artistName := artistName
    spotifyId := spotifyId
    trackMatrix := profiles
    genreMapping := gm
    totalTracksAnalyzed := profiles.length }

/-- Embedding of the profile write of the batch driver
(src/batch-artist-audio-coverage.js line 350): updateOne with
`$set { essentiaAudioProfile: profile, essentiaVersion: ... }`. -/
def writeEssentiaAudioProfile (doc : ArtistDoc) (profile : EssentiaProfile)
    (version : String) : ArtistDoc :=
  { doc with essentiaAudioProfile := some profile, essentiaVersion := some version }

/-- The lifecycle flag decision of src/batch-artist-audio-coverage.js lines
354-372, computed from the modifiedCount reported by the completed profile write and the
written trackMatrix length against the configured maxTracks. -/
inductive FlagAction where
  | setBuilt
  | setStaged
  | noAction
deriving DecidableEq, Repr

/-- Decision taken after the profile write:
built when the write modified the document and tmLen >= maxTracks,
staged when it modified the document and tmLen > 0, otherwise nothing
(the failure branch logs and leaves essentiaProfileBuilt unset). -/
def profileWriteFlagDecision (modifiedCount tmLen maxTracks : Nat) : FlagAction :=
  if 0 < modifiedCount ∧ maxTracks ≤ tmLen then .setBuilt
  else if 0 < modifiedCount ∧ 0 < tmLen then .setStaged
  else .noAction

/-- A store operation issued by the write block of the batch driver, in program
order. -/
inductive StoreOp where
  | writeProfile (p : EssentiaProfile) (version : String)
  | setBuiltFlag
  | setStagedFlag
deriving DecidableEq, Repr

/-- The ordered list of store operations issued by src/batch-artist-audio-
coverage.js lines 348-372: the profile content write always comes first, and
the flag write that may follow is a function of the modifiedCount reported
by that write. -/
def lifecycleWriteOps (profile : EssentiaProfile) (version : String)
    (modifiedCount maxTracks : Nat) : List StoreOp :=
  StoreOp.writeProfile profile version ::
    (match profileWriteFlagDecision modifiedCount profile.trackMatrix.length maxTracks with
     | .setBuilt => [StoreOp.setBuiltFlag]
     | .setStaged => [StoreOp.setStagedFlag]
     | .noAction => [])

/-- Guard of the marked-built shortcut (src/batch-artist-audio-coverage.js
line 277): `stagedLen >= maxTracks && artist && !artist.essentiaProfileBuilt`. -/
def markedBuiltGuard (stagedLen maxTracks : Nat) (alreadyBuilt : Bool) : Bool :=
  decide (maxTracks ≤ stagedLen) && !alreadyBuilt

/-- Embedding of the legacy migration update (src/unnamed/part_000 lines
44-54): a document carrying a top-level essentiaTrackMatrix is skipped when
that array is empty, otherwise the nested essentiaAudioProfile.trackMatrix
is set from it and essentiaProfileBuilt plus essentiaProfileDate are set;
with --remove-old the legacy field is additionally unset. The dotted $set
preserves the other subfields of an existing essentiaAudioProfile. -/
def migrateLegacyDoc (now : Nat) (removeOld : Bool) (doc : ArtistDoc) : ArtistDoc :=
  match doc.essentiaTrackMatrix with
  | none => doc
  | some top =>
    if top.length = 0 then doc
    else
      let newProfile : EssentiaProfile :=
        match doc.essentiaAudioProfile with
        | none => { trackMatrix := top, genreMapping := none }
        | some p => { p with trackMatrix := top }
      { doc with
        essentiaAudioProfile := some newProfile
        essentiaProfileBuilt := true
        essentiaProfileDate := some now
        essentiaTrackMatrix := if removeOld then none else doc.essentiaTrackMatrix }

/-! ## Batch driver per-artist step (src/batch-artist-audio-coverage.js lines 256-388) -/

/-- The slice of an /api/analyze-artist response consumed by the batch
driver write path. -/
structure AnalyzeResp where
  success : Bool
  trackMatrix : List TrackProfile
  genreMapping : Option GenreMapping
deriving DecidableEq, Repr

/-- Classification of what the per-artist iteration did. -/
inductive BatchOutcome where
  | markedBuilt
  | skippedBuilt
  | skippedVectors
  | skippedDry
  | updatedBuilt
  | stagedSaved
  | writeNoop
  | noWrite
deriving DecidableEq, Repr

/-- Embedding of one main-loop iteration of the batch driver
(src/batch-artist-audio-coverage.js lines 256-388) along its apple-first
analysis path. `analyze` is the /api/analyze-artist call, taking the
requested maxTracks (line 311 passes `remainingTracks || maxTracks`);
`existingVectors` is the audio_features coverage count read at line 272.
The modifiedCount of the profile write follows MongoDB semantics: positive
exactly when the stored value changes. Returns the resulting document, the
outcome tag, and the track count requested from the analyzer. -/
def batchArtistStep (maxTracks : Nat) (forceFlag dryRun : Bool)
    (existingVectors : Nat) (analyze : Nat → AnalyzeResp)
    (artist : ArtistDoc) : ArtistDoc × BatchOutcome × Nat :=
  let stagedLen : Nat :=
    match artist.essentiaAudioProfile with
    | some p => p.trackMatrix.length
    | none => 0
  let remainingTracks : Nat := maxTracks - stagedLen
  if markedBuiltGuard stagedLen maxTracks artist.essentiaProfileBuilt then
    ({ artist with
        essentiaProfileBuilt := true
        essentiaProfileDate := some 1
        essentiaProfileStaged := false }, .markedBuilt, 0)
  else if artist.essentiaProfileBuilt && !forceFlag then (artist, .skippedBuilt, 0)
  else if maxTracks ≤ existingVectors then (artist, .skippedVectors, 0)
  else if dryRun then (artist, .skippedDry, 0)
  else
    let requested : Nat := if remainingTracks = 0 then maxTracks else remainingTracks
    let lastAnalysis := analyze requested
    if lastAnalysis.success then
      let profile : EssentiaProfile :=
        { trackMatrix := lastAnalysis.trackMatrix
          genreMapping := lastAnalysis.genreMapping }
      let written := writeEssentiaAudioProfile artist profile "2.0"
      let modifiedCount : Nat := if written = artist then 0 else 1
      match profileWriteFlagDecision modifiedCount profile.trackMatrix.length maxTracks with
      | .setBuilt =>
        ({ written with
            essentiaProfileBuilt := true
            essentiaProfileDate := some 1
            essentiaProfileStaged := false }, .updatedBuilt, requested)
      | .setStaged =>
        ({ written with
            essentiaProfileStaged := true
            essentiaProfileDate := some 1 }, .stagedSaved, requested)
      | .noAction => (written, .writeNoop, requested)
    else (artist, .noWrite, requested)

/-! ## Reconciliation scanner (src/scripts/essentia_flag_scanner.js) -/

/-- The scanner test at line 30: the nested trackMatrix is an array with
positive length. -/
def hasUsableMatrix (d : ArtistDoc) : Bool :=
  match d.essentiaAudioProfile with
  | some p => decide (0 < p.trackMatrix.length)
  | none => false

/-- Embedding of the scan (lines 25-34): iterate documents with
essentiaProfileBuilt true, up to the limit, and collect those without a
usable matrix. -/
def scanViolations (docs : List ArtistDoc) (limit : Nat) : List ArtistDoc :=
  ((docs.filter (·.essentiaProfileBuilt)).take limit).filter (fun d => !hasUsableMatrix d)

/-- Embedding of the repair update (line 42-43):
unset of essentiaProfileBuilt and essentiaProfileDate. -/
def repairUnsetFlags (d : ArtistDoc) : ArtistDoc :=
  { d with essentiaProfileBuilt := false, essentiaProfileDate := none }

/-! ## Genre mapping (src/server.js lines 1249-1446) -/

/-- Substring containment on character lists, the semantics of JavaScript
String.prototype.includes used by inferGenreFromArtistName. -/
def containsSeq (sub : List Char) : List Char → Bool
  | [] => sub.isEmpty
  | c :: rest => sub.isPrefixOf (c :: rest) || containsSeq sub rest

/-- JavaScript s.includes(pat). -/
def strIncludes (s pat : String) : Bool := containsSeq pat.data s.data

/-- Average of the defined values of one feature across profiles, as in
calculateAverageFeatures (src/server.js lines 1318-1335): absent when no
profile defines the feature. -/
def avgOpt (vals : List ℚ) : Option ℚ :=
  if vals.length = 0 then none else some (vals.sum / vals.length)

/-- Embedding of calculateAverageFeatures over the five features it reads. -/
def calculateAverageFeatures (ps : List TrackProfile) : Features :=
  { energy := avgOpt (ps.filterMap (·.essentiaFeatures.energy))
    danceability := avgOpt (ps.filterMap (·.essentiaFeatures.danceability))
    valence := avgOpt (ps.filterMap (·.essentiaFeatures.valence))
    tempo := avgOpt (ps.filterMap (·.essentiaFeatures.tempo))
    spectralCentroid := avgOpt (ps.filterMap (·.essentiaFeatures.spectralCentroid)) }

/-- JavaScript `avg.f > q` where avg.f may be undefined: undefined compares
false. -/
def optGTq (o : Option ℚ) (q : ℚ) : Bool :=
  match o with
  | none => false
  | some v => decide (q < v)

/-- JavaScript `avg.f < q` where avg.f may be undefined. -/
def optLTq (o : Option ℚ) (q : ℚ) : Bool :=
  match o with
  | none => false
  | some v => decide (v < q)

/-- JavaScript `!avg.f`: true for an absent feature and also for the value
zero. -/
def jsFalsy (o : Option ℚ) : Bool :=
  match o with
  | none => true
  | some v => decide (v = 0)

/-- Insertion-order deduplication, the semantics of `[...new Set(xs)]`. -/
def dedupFirst : List String → List String
  | [] => []
  | x :: xs => x :: dedupFirst (xs.filter (· ≠ x))
termination_by l => l.length
decreasing_by
  simp only [List.length_cons]
  exact Nat.lt_succ_of_le (List.length_filter_le _ _)

/-- Embedding of inferGenresFromTracks (src/server.js lines 1338-1392). The
numeric literals of the source are decimal and carried here as exact
rationals; the artistName parameter is accepted and unused, as in the
source. -/
def inferGenresFromTracks (ps : List TrackProfile) (artistName : String) : List String :=
  let _ := artistName
  if ps.length = 0 then []
  else
    let avg := calculateAverageFeatures ps
    if jsFalsy avg.energy && jsFalsy avg.tempo && jsFalsy avg.danceability then []
    else
      let gEdm :=
        if optGTq avg.energy 0.75 && optGTq avg.tempo 125 && optGTq avg.danceability 0.65 then
          ["edm", "electronic", "dance"]
        else if optGTq avg.energy 0.7 && optGTq avg.tempo 120 then ["electronic", "dance"]
        else []
      let gHouse :=
        if optGTq avg.tempo 115 && optLTq avg.tempo 135 && optGTq avg.danceability 0.7 then
          ["house", "techno"]
        else []
      let gTrance :=
        if optGTq avg.tempo 130 && optGTq avg.energy 0.8 && optGTq avg.valence 0.6 then
          ["trance"]
        else []
      let gBass :=
        if optGTq avg.energy 0.8 && optGTq avg.tempo 140 then ["dubstep", "bass"] else []
      let gPop :=
        if optGTq avg.energy 0.6 && optGTq avg.danceability 0.7 && optGTq avg.valence 0.5 then
          ["pop", "dance-pop"]
        else []
      let gIndie :=
        if optLTq avg.valence 0.4 && optLTq avg.energy 0.6 then ["indie", "alternative"] else []
      let gAmbient :=
        if optLTq avg.tempo 100 && optLTq avg.energy 0.4 then ["ambient", "downtempo"] else []
      let gHipHop :=
        if optGTq avg.tempo 80 && optLTq avg.tempo 110 && optGTq avg.energy 0.6 then
          ["hip-hop", "rap"]
        else []
      (dedupFirst (gEdm ++ gHouse ++ gTrance ++ gBass ++ gPop ++ gIndie ++ gAmbient ++ gHipHop)).take 3

/-- Artist lists of inferGenreFromArtistName (src/server.js lines 1395-1434). -/
def edmArtists : List String :=
  ["deadmau5", "skrillex", "calvin harris", "tiesto", "david guetta", "armin van buuren",
   "martin garrix", "diplo", "zedd", "marshmello", "fisher", "ferry corsten", "dvbbs",
   "rezz", "porter robinson", "richie hawtin", "tiga", "above & beyond", "eric prydz",
   "deadmau5", "swedish house mafia", "axwell", "steve angello", "sebastian ingrosso"]

/-- Rock and metal artist names checked by inferGenreFromArtistName. -/
def rockArtists : List String :=
  ["metallica", "iron maiden", "black sabbath", "suffocation", "killswitch engage",
   "parkway drive", "beartooth", "anvil"]

/-- Hip-hop artist names checked by inferGenreFromArtistName. -/
def hipHopArtists : List String := ["wu-tang clan", "run the jewels", "big sean", "russ"]

/-- Pop artist names checked by inferGenreFromArtistName. -/
def popArtists : List String := ["coldplay", "shania twain", "luke bryan", "thomas rhett"]

/-- Indie artist names checked by inferGenreFromArtistName. -/
def indieArtists : List String := ["pup", "jeff rosenstock", "kurt vile", "tripping daisy", "mest"]

/-- Embedding of inferGenreFromArtistName (src/server.js lines 1395-1434). -/
def inferGenreFromArtistName (artistName : String) : List String :=
  let name := artistName.toLower
  if edmArtists.any (fun a => strIncludes name a) then ["edm", "electronic", "dance"]
  else if rockArtists.any (fun a => strIncludes name a) then ["rock", "metal"]
  else if hipHopArtists.any (fun a => strIncludes name a) then ["hip-hop", "rap"]
  else if popArtists.any (fun a => strIncludes name a) then ["pop"]
  else if indieArtists.any (fun a => strIncludes name a) then ["indie", "alternative"]
  else []

/-- Embedding of buildGenreMapping (src/server.js lines 1250-1292): existing
genres first (tag "spotify"), then audio-feature inference
("audio_analysis"), then artist-name inference ("name_inference"), else
"none". -/
def buildGenreMapping (trackProfiles : List TrackProfile) (artistName : String)
    (existingGenres : List String) : GenreMapping :=
  if 0 < existingGenres.length then
    { inferredGenres := existingGenres.take 5, source := "spotify", confidence := 1 }
  else
    let genres := inferGenresFromTracks trackProfiles artistName
    if 0 < genres.length then
      { inferredGenres := genres, source := "audio_analysis", confidence := 0.8 }
    else
      let artistBased := inferGenreFromArtistName artistName
      if 0 < artistBased.length then
        { inferredGenres := artistBased, source := "name_inference", confidence := 0.6 }
      else { inferredGenres := [], source := "none", confidence := 0 }

/-- The response fields of the zero-trackProfiles path of
/api/analyze-artist relevant to the claims (src/server.js lines 849-887). -/
structure ZeroProfileResp where
  success : Bool
  partFlag : Bool
  failSubtype : String
  trackMatrix : List TrackProfile
  genreMapping : GenreMapping
deriving DecidableEq, Repr

/-- Embedding of the trackProfiles.length === 0 branch of the handler
(src/server.js lines 849-887): classify the failure subtype, then return a
partial success when the genre mapping carries at least one genre, and a
failure response otherwise. The partial response always carries an empty
trackMatrix. -/
def zeroProfileResponse (hadInitialTracks : Bool) (existingGenres : List String)
    (gm : GenreMapping) : ZeroProfileResp :=
  let failSubtype :=
    if hadInitialTracks then "no_preview"
    else if 0 < existingGenres.length then "no_tracks_genre_only"
    else "no_tracks"
  if 0 < gm.inferredGenres.length then
    { success := true, partFlag := true, failSubtype := failSubtype,
      trackMatrix := [], genreMapping := gm }
  else
    { success := false, partFlag := false, failSubtype := failSubtype,
      trackMatrix := [], genreMapping := gm }

/-! ## Provider resolution engine (src/server.js lines 390-684)

acquirePreviewForTrack is embedded as a chain of step functions over an
explicit state record; the mutable locals of the JavaScript closure (previewUrl,
audioSource, alternativeSourceInfo, the remembered suppressed previews) and
the mutated acquisitionStats counters are fields of that state. Each
provider call is an oracle returning Except; where the source wraps a
single call in try/catch, the error case is folded to "no candidate"
through effectiveResult, and where one try/catch spans two calls (the
relaxed SoundCloud block) the Except is matched explicitly so that an error
in the first call also skips the second, as in the source. -/

/-- A track descriptor as consumed by the handler: Spotify or Apple catalog
item with an optional known preview reference. -/
structure Track where
  id : Nat
  name : String
  artistNames : List String
  popularity : Nat
  isRecentRelease : Bool
  previewUrl : Option String
  applePreview : Bool
deriving DecidableEq, Repr

/-- The request-level configuration read by acquirePreviewForTrack: the
lowercased previewStrategy, the explicit req.body.forceSoundCloudTest flag,
the presence of the SOUNDCLOUD_CLIENT_ID environment variable, the presence
of a Spotify token, and fastMode. -/
structure AcqConfig where
  previewStrategy : String
  bodyForceSoundCloudTest : Bool
  soundcloudClientId : Bool
  spotifyToken : Bool
  fastMode : Bool
deriving DecidableEq, Repr

/-- The test previewStrategy === "apple_primary" (src/server.js line 432). -/
def AcqConfig.useApplePrimary (cfg : AcqConfig) : Bool :=
  cfg.previewStrategy == "apple_primary"

/-- The test previewStrategy === "soundcloud_primary" (src/server.js line 433). -/
def AcqConfig.soundcloudPrimary (cfg : AcqConfig) : Bool :=
  cfg.previewStrategy == "soundcloud_primary"

/-- The function-local `forceSoundCloudTest = soundcloudPrimary ||
acquisitionStats.forceSoundCloudTest` (src/server.js line 434), which
shadows the handler-level constant of the same name. -/
def AcqConfig.forceSC (cfg : AcqConfig) : Bool :=
  cfg.soundcloudPrimary || cfg.bodyForceSoundCloudTest

/-- Provider oracles. Each returns an Except so that a network error or
non-success response is an explicit error value; the try/catch of the source
placement decides where such an error is absorbed. The Spotify recovery
market/pattern loop (src/server.js lines 525-614) is abstracted as one
fallible call returning the recovered preview_url, faithful to its single
surrounding try/catch; altSource abstracts findAlternativeAudioSource and
returns the (streamUrl, source) of the best source when one exists. -/
structure Providers where
  scSearch : String → String → Except String (Option String)
  appleExact : String → String → Except String (Option String)
  appleBroad : String → String → Except String (Option String)
  spotifyRecovery : Track → Except String (Option String)
  altSource : String → String → Except String (Option (String × String))

/-- The catch applied around a single provider call whose only effect on
success is an assignment: an error behaves as no candidate. -/
def effectiveResult {α : Type} (x : Except String (Option α)) : Option α :=
  match x with
  | .error _ => none
  | .ok r => r

/-- `track.artists[0]?.name`, with the empty string standing for undefined. -/
def primaryArtist (track : Track) : String := track.artistNames.headD ""

/-- The Apple-preview test of src/server.js line 392:
`track.applePreview || /mzstatic|audio-ssl\.itunes\.apple\.com/i.test(url)`. -/
def isAppleUrl (u : String) : Bool :=
  strIncludes u "mzstatic" || strIncludes u "audio-ssl.itunes.apple.com"

/-- The test audioSource.startsWith("apple") guarded by audioSource truthiness. -/
def sourceStartsWithApple (o : Option String) : Bool :=
  match o with
  | none => false
  | some s => "apple".data.isPrefixOf s.data

/-- The mutable state of one acquirePreviewForTrack invocation: the local
variables of the closure together with the acquisitionStats counters it
touches. scSites mirrors soundcloudDiagnostics.queries as the ordered list
of SoundCloud call sites reached. -/
structure AcqState where
  previewUrl : Option String
  audioSource : Option String
  altInfo : Option String
  originalApplePreview : Option String
  originalSpotifyPreview : Option String
  spotifyPreviewSuppressed : Nat
  scAttempts : Nat
  scHits : Nat
  soundcloudRescue : Nat
  spotifyPreviewRecovered : Nat
  spotifySuppressedRestored : Nat
  appleOverrideSpotify : Nat
  spotifyRecoveryDisabled : Bool
  scSites : List String
deriving DecidableEq, Repr

/-- Lines 391-394: remember an Apple-origin preview, take the known preview
as the starting point and tag its source. -/
def initAcqState (track : Track) : AcqState :=
  let originalApplePreview : Option String :=
    match track.previewUrl with
    | none => none
    | some u => if track.applePreview || isAppleUrl u then some u else none
  { previewUrl := track.previewUrl
    audioSource :=
      match track.previewUrl with
      | none => none
      | some _ => if originalApplePreview.isSome then some "apple" else some "spotify"
    altInfo := none
    originalApplePreview := originalApplePreview
    originalSpotifyPreview := none
    spotifyPreviewSuppressed := 0
    scAttempts := 0
    scHits := 0
    soundcloudRescue := 0
    spotifyPreviewRecovered := 0
    spotifySuppressedRestored := 0
    appleOverrideSpotify := 0
    spotifyRecoveryDisabled := false
    scSites := [] }

/-- Lines 396-402: under soundcloud_primary a Spotify-tagged preview is
suppressed and remembered. -/
def suppressSpotifyStep (cfg : AcqConfig) (st : AcqState) : AcqState :=
  if st.previewUrl.isSome && cfg.soundcloudPrimary && st.audioSource == some "spotify" then
    { st with
        originalSpotifyPreview := st.previewUrl
        previewUrl := none
        audioSource := none
        spotifyPreviewSuppressed := st.spotifyPreviewSuppressed + 1 }
  else st

/-- Lines 403-407: the explicit force flag suppresses any remaining preview
(without remembering it). -/
def forcedSuppressStep (cfg : AcqConfig) (st : AcqState) : AcqState :=
  if st.previewUrl.isSome && cfg.bodyForceSoundCloudTest then
    { st with previewUrl := none, audioSource := none }
  else st

/-- Lines 437-457: the early forced SoundCloud query. The diagnostics
increment precedes the call inside the try, so it survives a provider
error. -/
def earlySoundCloudStep (cfg : AcqConfig) (provs : Providers) (track : Track)
    (st : AcqState) : AcqState :=
  if st.previewUrl.isNone && cfg.forceSC && cfg.soundcloudClientId then
    let st1 := { st with scAttempts := st.scAttempts + 1, scSites := st.scSites ++ ["early"] }
    match effectiveResult (provs.scSearch (primaryArtist track) track.name) with
    | some url =>
      { st1 with
          previewUrl := some url
          audioSource := some "soundcloud"
          altInfo := some "soundcloud"
          soundcloudRescue := st1.soundcloudRescue + 1
          scHits := st1.scHits + 1 }
    | none => st1
  else st

/-- The artist-only SoundCloud query of lines 481-495. -/
def artistOnlySoundCloudQuery (provs : Providers) (track : Track)
    (st : AcqState) : AcqState :=
  let st1 := { st with scAttempts := st.scAttempts + 1, scSites := st.scSites ++ ["artistOnly"] }
  match provs.scSearch (primaryArtist track) "" with
  | .error _ => st1
  | .ok (some url) =>
    { st1 with
        previewUrl := some url
        audioSource := some "soundcloud"
        altInfo := some "soundcloud"
        soundcloudRescue := st1.soundcloudRescue + 1
        scHits := st1.scHits + 1 }
  | .ok none => st1

/-- Lines 459-499: the relaxed SoundCloud block. One try/catch spans both
the simplified-name query (issued only when simplifyName changed the name)
and the artist-only query, so an error in the simplified query also skips
the artist-only query, while the partial diagnostics updates persist. -/
def relaxedSoundCloudStep (cfg : AcqConfig) (provs : Providers)
    (simplifyName : String → String) (track : Track) (st : AcqState) : AcqState :=
  if st.previewUrl.isNone && (cfg.forceSC || cfg.soundcloudPrimary) && cfg.soundcloudClientId then
    let simple := simplifyName track.name
    if simple ≠ "" && simple ≠ track.name then
      let st1 := { st with scAttempts := st.scAttempts + 1, scSites := st.scSites ++ ["simplified"] }
      match provs.scSearch (primaryArtist track) simple with
      | .error _ => st1
      | .ok (some url) =>
        { st1 with
            previewUrl := some url
            audioSource := some "soundcloud"
            altInfo := some "soundcloud"
            soundcloudRescue := st1.soundcloudRescue + 1
            scHits := st1.scHits + 1 }
      | .ok none => artistOnlySoundCloudQuery provs track st1
    else artistOnlySoundCloudQuery provs track st
  else st

/-- Lines 501-522: the apple_primary strategy block, skipped entirely when
the SoundCloud test is forced. -/
def applePrimaryStep (cfg : AcqConfig) (provs : Providers) (track : Track)
    (st : AcqState) : AcqState :=
  if cfg.useApplePrimary && !cfg.forceSC then
    let hadSpotify := st.previewUrl.isSome
    let st2 :=
      if !track.artistNames.isEmpty && track.name ≠ "" then
        let stA :=
          if st.previewUrl.isNone then
            match effectiveResult (provs.appleExact (primaryArtist track) track.name) with
            | some u => { st with previewUrl := some u, audioSource := some "apple" }
            | none => st
          else st
        if stA.previewUrl.isNone then
          match effectiveResult (provs.appleBroad (primaryArtist track) track.name) with
          | some u => { stA with previewUrl := some u, audioSource := some "apple_broad" }
          | none => stA
        else stA
      else st
    if st2.previewUrl.isSome && sourceStartsWithApple st2.audioSource && hadSpotify then
      { st2 with appleOverrideSpotify := st2.appleOverrideSpotify + 1 }
    else st2
  else st

/-- Lines 524-614: the Spotify recovery block, attempted only under the
balanced path; its whole loop sits in one try/catch and only a recovered
candidate carrying a preview_url is used. -/
def spotifyRecoveryStep (cfg : AcqConfig) (provs : Providers) (track : Track)
    (st : AcqState) : AcqState :=
  if st.previewUrl.isNone && cfg.spotifyToken && !cfg.useApplePrimary &&
      !cfg.forceSC && !cfg.soundcloudPrimary then
    match effectiveResult (provs.spotifyRecovery track) with
    | some u =>
      { st with
          previewUrl := some u
          audioSource := some "spotify"
          spotifyPreviewRecovered := st.spotifyPreviewRecovered + 1 }
    | none => st
  else st

/-- Lines 615-617: record that the Spotify recovery block was skipped. -/
def recoveryDisabledFlagStep (cfg : AcqConfig) (st : AcqState) : AcqState :=
  if (cfg.useApplePrimary || cfg.forceSC || cfg.soundcloudPrimary) && st.previewUrl.isNone then
    { st with spotifyRecoveryDisabled := true }
  else st

/-- Lines 619-624: Apple exact search on the balanced path. The source
dereferences track.artists[0].name inside the try, so a missing artist
throws and is caught as no candidate. -/
def appleExactStep (cfg : AcqConfig) (provs : Providers) (track : Track)
    (st : AcqState) : AcqState :=
  if st.previewUrl.isNone && !cfg.useApplePrimary && !cfg.forceSC && !cfg.soundcloudPrimary then
    if track.artistNames.isEmpty then st
    else
      match effectiveResult (provs.appleExact (primaryArtist track) track.name) with
      | some u => { st with previewUrl := some u, audioSource := some "apple" }
      | none => st
  else st

/-- Lines 626-631: broader Apple search on the balanced path. -/
def appleBroadStep (cfg : AcqConfig) (provs : Providers) (track : Track)
    (st : AcqState) : AcqState :=
  if st.previewUrl.isNone && !cfg.useApplePrimary && !cfg.forceSC && !cfg.soundcloudPrimary then
    if track.artistNames.isEmpty then st
    else
      match effectiveResult (provs.appleBroad (primaryArtist track) track.name) with
      | some u => { st with previewUrl := some u, audioSource := some "apple_broad" }
      | none => st
  else st

/-- Lines 633-651: the explicit SoundCloud query available whenever the
client id is configured and no preview was found yet. -/
def soundcloudExplicitStep (cfg : AcqConfig) (provs : Providers) (track : Track)
    (st : AcqState) : AcqState :=
  if st.previewUrl.isNone && cfg.soundcloudClientId then
    let st1 := { st with scAttempts := st.scAttempts + 1, scSites := st.scSites ++ ["explicit"] }
    match effectiveResult (provs.scSearch (primaryArtist track) track.name) with
    | some url =>
      { st1 with
          previewUrl := some url
          audioSource := some "soundcloud"
          altInfo := some "soundcloud"
          soundcloudRescue := st1.soundcloudRescue + 1
          scHits := st1.scHits + 1 }
    | none => st1
  else st

/-- Lines 653-666: the multi-source aggregator fallback. -/
def altAggregatorStep (provs : Providers) (track : Track) (st : AcqState) : AcqState :=
  if st.previewUrl.isNone then
    match effectiveResult (provs.altSource (primaryArtist track) track.name) with
    | some ut => { st with previewUrl := some ut.1, audioSource := some ut.2, altInfo := some ut.2 }
    | none => st
  else st

/-- Lines 667-671: apple_primary falls back to the original Spotify preview
when everything else failed. -/
def applePrimaryFallbackStep (cfg : AcqConfig) (track : Track) (st : AcqState) : AcqState :=
  if cfg.useApplePrimary && !cfg.forceSC && !cfg.soundcloudPrimary &&
      st.previewUrl.isNone && track.previewUrl.isSome then
    { st with previewUrl := track.previewUrl, audioSource := some "spotify" }
  else st

/-- Lines 672-676: restore a remembered Apple preview when the SoundCloud
test mode found nothing. -/
def restoreApplePreviewStep (cfg : AcqConfig) (st : AcqState) : AcqState :=
  if st.previewUrl.isNone && (cfg.soundcloudPrimary || cfg.forceSC) &&
      st.originalApplePreview.isSome then
    { st with previewUrl := st.originalApplePreview, audioSource := some "apple" }
  else st

/-- Lines 677-682: restore a suppressed Spotify preview, guarded by
`soundcloudPrimary && !forceSoundCloudTest` with the function-local
forceSoundCloudTest of line 434. -/
def restoreSpotifyPreviewStep (cfg : AcqConfig) (st : AcqState) : AcqState :=
  if st.previewUrl.isNone && cfg.soundcloudPrimary && !cfg.forceSC &&
      st.originalSpotifyPreview.isSome then
    { st with
        previewUrl := st.originalSpotifyPreview
        audioSource := some "spotify"
        spotifySuppressedRestored := st.spotifySuppressedRestored + 1 }
  else st

/-- Embedding of acquirePreviewForTrack (src/server.js lines 390-684): the
steps in program order. -/
def acquirePreviewForTrack (cfg : AcqConfig) (provs : Providers)
    (simplifyName : String → String) (track : Track) : AcqState :=
  let s0 := initAcqState track
  let s1 := suppressSpotifyStep cfg s0
  let s2 := forcedSuppressStep cfg s1
  let s3 := earlySoundCloudStep cfg provs track s2
  let s4 := relaxedSoundCloudStep cfg provs simplifyName track s3
  let s5 := applePrimaryStep cfg provs track s4
  let s6 := spotifyRecoveryStep cfg provs track s5
  let s7 := recoveryDisabledFlagStep cfg s6
  let s8 := appleExactStep cfg provs track s7
  let s9 := appleBroadStep cfg provs track s8
  let s10 := soundcloudExplicitStep cfg provs track s9
  let s11 := altAggregatorStep provs track s10
  let s12 := applePrimaryFallbackStep cfg track s11
  let s13 := restoreApplePreviewStep cfg s12
  restoreSpotifyPreviewStep cfg s13

/-! ## Round loops and track selection (src/server.js lines 264-828) -/

/-- One iteration body of a round loop (src/server.js lines 688-742 and
764-818): acquire a preview, and when one was found run the extractor and
build the Track Profile. An extractor failure escapes as an error, to be
caught by the per-track try/catch of the loop. -/
def processTrack (cfg : AcqConfig) (provs : Providers)
    (simplifyName : String → String) (extract : String → Except String Features)
    (round : Nat) (track : Track) : Except String (Option TrackProfile) :=
  let st := acquirePreviewForTrack cfg provs simplifyName track
  match st.previewUrl with
  | some url => do
    let features ← extract url
    pure (some
      { trackId := track.id
        name := track.name
        artist := primaryArtist track
        popularity := track.popularity
        isRecentRelease := track.isRecentRelease
        previewUrl := url
        audioSource := st.audioSource
        alternativeSource := st.altInfo
        essentiaFeatures := features
        analysisRound := round })
  | none => pure none

/-- A round loop over its per-iteration body: the body for each track runs under
its own try/catch, so a failing body skips that track and the loop
continues; successful profiles are pushed in order. In the source the body
is the resolve-then-extract block; stagedAnalysis instantiates it with
processTrack. -/
def roundLoop (body : Track → Except String (Option TrackProfile)) :
    List Track → List TrackProfile
  | [] => []
  | t :: rest =>
    match body t with
    | .error _ => roundLoop body rest
    | .ok none => roundLoop body rest
    | .ok (some p) => p :: roundLoop body rest

/-- Recent-album tracks are spread with `isRecentRelease: true`
(src/server.js lines 290-294). -/
def flagRecentRelease (t : Track) : Track := { t with isRecentRelease := true }

/-- Line 296: `tracks = tracks.concat(albumTracks)` after flagging. -/
def concatRecentAlbumTracks (tracks albumTracks : List Track) : List Track :=
  tracks ++ albumTracks.map flagRecentRelease

/-- Line 370: `tracks.filter(t => !t.isRecentRelease)`. -/
def topTracksOf (tracks : List Track) : List Track :=
  tracks.filter (fun t => !t.isRecentRelease)

/-- Line 371: `tracks.filter(t => t.isRecentRelease)`. -/
def recentTracksOf (tracks : List Track) : List Track :=
  tracks.filter (·.isRecentRelease)

/-- Lines 376-379: round 1 takes the first five top tracks and, outside
fastMode, the first five recent tracks. -/
def round1TracksOf (fastMode : Bool) (tracks : List Track) : List Track :=
  if fastMode then (topTracksOf tracks).take 5
  else (topTracksOf tracks).take 5 ++ (recentTracksOf tracks).take 5

/-- Lines 758-760: round 2 takes the next five of each partition. -/
def round2TracksOf (tracks : List Track) : List Track :=
  ((topTracksOf tracks).drop 5).take 5 ++ ((recentTracksOf tracks).drop 5).take 5

/-- The staged two-round analysis of the handler (src/server.js lines
370-828): run round 1, then round 2 exactly when the gate passes, with the
success count of round 1 equal to the number of profiles it accumulated.
elapsedAtGate is the wall-clock reading of line 752. -/
def stagedAnalysis (cfg : AcqConfig) (provs : Providers)
    (simplifyName : String → String) (extract : String → Except String Features)
    (tracks : List Track) (elapsedAtGate maxTracks : Nat) : List TrackProfile :=
  let round1 := round1TracksOf cfg.fastMode tracks
  let profiles1 := roundLoop (processTrack cfg provs simplifyName extract 1) round1
  if round2Gate cfg.fastMode elapsedAtGate profiles1.length round1.length maxTracks then
    profiles1 ++ roundLoop (processTrack cfg provs simplifyName extract 2) (round2TracksOf tracks)
  else profiles1

/-! ## Concrete fixtures used in the theorems below -/

/-- A features object with no defined fields. -/
def feat0 : Features :=
  { energy := none, danceability := none, valence := none, tempo := none,
    spectralCentroid := none }

/-- A minimal persisted track profile with the given identity. -/
def sampleProfile (i : Nat) (recent : Bool) : TrackProfile :=
  { trackId := i, name := "t", artist := "a", popularity := 0, isRecentRelease := recent,
    previewUrl := "u", audioSource := some "apple", alternativeSource := none,
    essentiaFeatures := feat0, analysisRound := 1 }

/-- Two track profiles sharing the same trackId, as produced when one track
appears in both the top and the recent round slices. -/
def dupProfilePair : List TrackProfile := [sampleProfile 7 false, sampleProfile 7 true]

/-- An empty genre mapping. -/
def gm0 : GenreMapping := { inferredGenres := [], source := "none", confidence := 0 }

/-- Three known genre tags supplied as existingGenres. -/
def threeGenres : List String := ["rock", "pop", "edm"]

/-- A legacy document carrying a one-element top-level essentiaTrackMatrix
and no built flag, as selected by the migration. -/
def legacyDoc1 : ArtistDoc :=
  { docId := 1, name := some "a", spotifyId := none, genres := [],
    essentiaTrackMatrix := some [sampleProfile 1 false], essentiaAudioProfile := none,
    essentiaProfileBuilt := false, essentiaProfileStaged := false,
    essentiaProfileDate := none, essentiaVersion := none }

/-- A staged aggregate holding six of a ten-track target. -/
def stagedSixDoc : ArtistDoc :=
  { docId := 2, name := some "b", spotifyId := none, genres := [],
    essentiaTrackMatrix := none,
    essentiaAudioProfile := some
      { trackMatrix :=
          [sampleProfile 1 false, sampleProfile 2 false, sampleProfile 3 false,
           sampleProfile 4 false, sampleProfile 5 false, sampleProfile 6 false],
        genreMapping := none },
    essentiaProfileBuilt := false, essentiaProfileStaged := true,
    essentiaProfileDate := some 0, essentiaVersion := some "2.0" }

/-- An analyzer response supplying four fresh successful track profiles,
regardless of the requested count. -/
def resumeAnalyze : Nat → AnalyzeResp := fun _ =>
  { success := true,
    trackMatrix :=
      [sampleProfile 7 false, sampleProfile 8 false, sampleProfile 9 false,
       sampleProfile 10 false],
    genreMapping := none }

/-- A document whose built flag is set while its profile is absent:
a violation of the built invariant for the scanner to find. -/
def badBuiltDoc : ArtistDoc :=
  { docId := 9, name := some "bad", spotifyId := none, genres := ["edm"],
    essentiaTrackMatrix := none, essentiaAudioProfile := none,
    essentiaProfileBuilt := true, essentiaProfileStaged := false,
    essentiaProfileDate := some 3, essentiaVersion := none }

/-- The balanced path: a strategy string that is neither apple_primary nor
soundcloud_primary, no force flag, SoundCloud configured, Spotify token
present. -/
def cfgBalanced : AcqConfig :=
  { previewStrategy := "balanced", bodyForceSoundCloudTest := false,
    soundcloudClientId := true, spotifyToken := true, fastMode := false }

/-- The forced SoundCloud diagnostic via the explicit request flag. -/
def cfgForcedSC : AcqConfig :=
  { previewStrategy := "apple_primary", bodyForceSoundCloudTest := true,
    soundcloudClientId := true, spotifyToken := true, fastMode := false }

/-- The soundcloud_primary strategy without the explicit force flag. -/
def cfgSoundcloudPrimary : AcqConfig :=
  { previewStrategy := "soundcloud_primary", bodyForceSoundCloudTest := false,
    soundcloudClientId := true, spotifyToken := true, fastMode := false }

/-- The default apple_primary strategy with no SoundCloud client id and no
Spotify token. -/
def cfgApplePrimary : AcqConfig :=
  { previewStrategy := "apple_primary", bodyForceSoundCloudTest := false,
    soundcloudClientId := false, spotifyToken := false, fastMode := false }

/-- Providers that always answer with no candidate. -/
def provsAllNone : Providers :=
  { scSearch := fun _ _ => .ok none, appleExact := fun _ _ => .ok none,
    appleBroad := fun _ _ => .ok none, spotifyRecovery := fun _ => .ok none,
    altSource := fun _ _ => .ok none }

/-- Providers that always fail with a network error. -/
def provsAllThrow : Providers :=
  { scSearch := fun _ _ => .error "network", appleExact := fun _ _ => .error "network",
    appleBroad := fun _ _ => .error "network", spotifyRecovery := fun _ => .error "network",
    altSource := fun _ _ => .error "network" }

/-- A track with a known Spotify-hosted preview reference. -/
def spotifyPreviewTrack : Track :=
  { id := 3, name := "Pulse", artistNames := ["DJ X"], popularity := 60,
    isRecentRelease := false, previewUrl := some "https://p.scdn.co/mp3-preview/abc",
    applePreview := false }

/-- A track with no known preview reference. -/
def noPreviewTrack : Track :=
  { id := 11, name := "Echo", artistNames := ["DJ X"], popularity := 10,
    isRecentRelease := false, previewUrl := none, applePreview := false }

/-- A track with a known Apple-hosted preview, appearing in both the
top-tracks list and a recent album track list. -/
def dualTrack : Track :=
  { id := 7, name := "Glow", artistNames := ["DJ X"], popularity := 50,
    isRecentRelease := false,
    previewUrl := some "https://audio-ssl.itunes.apple.com/p7.m4a",
    applePreview := true }

/-- An extractor that always succeeds. -/
def extractOk : String → Except String Features := fun _ => .ok feat0

/-- The visible resolution outcome of an acquirePreviewForTrack run. -/
def outcomeTriple (st : AcqState) : Option String × Option String × Option String :=
  (st.previewUrl, st.audioSource, st.altInfo)

/-- The soundcloud_primary diagnostic run on a track with a known Spotify
preview, with every alternative provider yielding no candidate. -/
def c5Run : AcqState :=
  acquirePreviewForTrack cfgSoundcloudPrimary provsAllNone (fun n => n) spotifyPreviewTrack

/-- The full staged analysis on a catalog where the same track appears both
as a top track and inside a recent album. -/
def c10Run : List TrackProfile :=
  stagedAnalysis cfgApplePrimary provsAllNone (fun n => n) extractOk
    (concatRecentAlbumTracks [dualTrack] [dualTrack]) 0 20

/-! ## Theorems -/

/-- C2 counterexample: with fastMode off, elapsed time exactly 22000 ms,
round-1 success 4 of 10 (rate exactly 0.4) and maxTracks 20, the code
executes round 2, but the claimed four-way conjunction fails because the
elapsed time is not strictly below the 22-second threshold; the claimed
equivalence is false at this input. -/
theorem round2GateBoundaryCounterexample :
    ¬ (round2Gate false 22000 4 10 20 = true ↔
        (22000 < 22000 ∧ 2 * 10 ≤ 5 * 4 ∧ 10 < 20)) := by decide

/-- C2 amended: for a non-empty round-1 attempt list, round 2 executes if
and only if fastMode is off, the elapsed time does not exceed 22000 ms,
the round-1 success rate is at least 0.4, and maxTracks exceeds 10; in
particular a success rate below 0.4 always suppresses round 2. -/
theorem round2GateCharacterization (fastMode : Bool)
    (elapsedMs r1s r1a maxT : Nat) (ha : r1a ≠ 0) :
    (round2Gate fastMode elapsedMs r1s r1a maxT = true ↔
      (fastMode = false ∧ elapsedMs ≤ 22000 ∧ 2 * r1a ≤ 5 * r1s ∧ 10 < maxT))
    ∧ (5 * r1s < 2 * r1a → round2Gate fastMode elapsedMs r1s r1a maxT = false) := by
  constructor
  · unfold round2Gate
    simp only [if_neg ha]
    cases fastMode <;> (simp; try omega)
  · intro hlow
    unfold round2Gate
    simp only [if_neg ha]
    cases fastMode <;> (simp; try omega)

/-- C2 witness: the amended characterization applied at a concrete passing
input. -/
theorem round2GateCharacterizationWitness :
    round2Gate false 21000 4 10 20 = true :=
  ((round2GateCharacterization false 21000 4 10 20 (by decide)).1).mpr (by decide)

/-- C3 counterexample: persisting the same two-element profile list twice
(the two entries share trackId 7, one from the top slice and one from the
recent slice) leaves the length unchanged, yet the resulting trackMatrix
contains duplicate track identities — the claimed absence of duplicates is
false. -/
theorem mergeIdempotenceCounterexample :
    (upsertArtistGenreProfile
        (some (upsertArtistGenreProfile none "dj x" none dupProfilePair gm0))
        "dj x" none dupProfilePair gm0).trackMatrix.length
      = (upsertArtistGenreProfile none "dj x" none dupProfilePair gm0).trackMatrix.length
    ∧ ¬ ((upsertArtistGenreProfile
        (some (upsertArtistGenreProfile none "dj x" none dupProfilePair gm0))
        "dj x" none dupProfilePair gm0).trackMatrix.map (·.trackId)).Nodup := by decide

/-- C3 amended: both persistence operations replace the stored trackMatrix
wholesale, so a repeated merge with the same input is idempotent (identical
document, unchanged length), and the persisted matrix is free of duplicate
track identities exactly when the input list is — no deduplication by
track identity is performed. -/
theorem mergeReplaceIdempotent (prior : Option ArtistGenreProfileDoc) (doc : ArtistDoc)
    (nameKey : String) (sid : Option String) (ps : List TrackProfile)
    (gm : GenreMapping) (profile : EssentiaProfile) (v : String) :
    upsertArtistGenreProfile (some (upsertArtistGenreProfile prior nameKey sid ps gm))
        nameKey sid ps gm
      = upsertArtistGenreProfile prior nameKey sid ps gm
    ∧ (upsertArtistGenreProfile prior nameKey sid ps gm).trackMatrix = ps
    ∧ (((upsertArtistGenreProfile prior nameKey sid ps gm).trackMatrix.map
          (·.trackId)).Nodup ↔ (ps.map (·.trackId)).Nodup)
    ∧ writeEssentiaAudioProfile (writeEssentiaAudioProfile doc profile v) profile v
      = writeEssentiaAudioProfile doc profile v :=
  ⟨rfl, rfl, Iff.rfl, rfl⟩

/-- C7: in the write block of the batch driver the profile content write is the
first store operation issued; a built or staged flag write is issued only
when the completed profile write reported a positive modifiedCount, and
when it reported none the flag operations are absent altogether. -/
theorem lifecycleFlagAfterConfirmedWrite (p : EssentiaProfile) (v : String) (m k : Nat) :
    (lifecycleWriteOps p v m k).head? = some (StoreOp.writeProfile p v)
    ∧ (∀ op ∈ lifecycleWriteOps p v m k,
        op = StoreOp.setBuiltFlag ∨ op = StoreOp.setStagedFlag → 0 < m)
    ∧ (m = 0 → lifecycleWriteOps p v m k = [StoreOp.writeProfile p v]) := by
  refine ⟨rfl, ?_, ?_⟩
  · intro op hop hflag
    by_contra hm
    have hm0 : m = 0 := by omega
    subst hm0
    simp only [lifecycleWriteOps, profileWriteFlagDecision, lt_self_iff_false,
      false_and, if_false, List.mem_singleton] at hop
    rcases hflag with h | h <;> rw [hop] at h <;> simp at h
  · intro hm
    subst hm
    simp [lifecycleWriteOps, profileWriteFlagDecision]

/-- C7 witness: the flag-requires-confirmed-write implication applied to a
concrete built-flag write. -/
theorem lifecycleFlagAfterConfirmedWriteWitness : 0 < 1 :=
  (lifecycleFlagAfterConfirmedWrite
      { trackMatrix := [sampleProfile 7 false], genreMapping := none } "2.0" 1 1).2.1
    StoreOp.setBuiltFlag (by decide) (Or.inl rfl)

/-- C9: the repair update changes exactly the built flag and the build
date, leaving every other field — in particular the accumulated
essentiaAudioProfile with its trackMatrix — untouched; and the scan only
selects documents whose built flag is set while the trackMatrix is missing
or empty. -/
theorem scannerRepairFrame :
    (∀ d : ArtistDoc,
        (repairUnsetFlags d).essentiaProfileBuilt = false
        ∧ (repairUnsetFlags d).essentiaProfileDate = none
        ∧ (repairUnsetFlags d).essentiaAudioProfile = d.essentiaAudioProfile
        ∧ (repairUnsetFlags d).docId = d.docId
        ∧ (repairUnsetFlags d).name = d.name
        ∧ (repairUnsetFlags d).spotifyId = d.spotifyId
        ∧ (repairUnsetFlags d).genres = d.genres
        ∧ (repairUnsetFlags d).essentiaTrackMatrix = d.essentiaTrackMatrix
        ∧ (repairUnsetFlags d).essentiaProfileStaged = d.essentiaProfileStaged
        ∧ (repairUnsetFlags d).essentiaVersion = d.essentiaVersion)
    ∧ (∀ (docs : List ArtistDoc) (limit : Nat) (d : ArtistDoc),
        d ∈ scanViolations docs limit →
        d.essentiaProfileBuilt = true ∧ hasUsableMatrix d = false) := by
  constructor
  · intro d
    exact ⟨rfl, rfl, rfl, rfl, rfl, rfl, rfl, rfl, rfl, rfl⟩
  · intro docs limit d hd
    have h1 := List.of_mem_filter hd
    have h2 : d ∈ (docs.filter (·.essentiaProfileBuilt)).take limit :=
      List.mem_of_mem_filter hd
    have h3 : d ∈ docs.filter (·.essentiaProfileBuilt) := List.take_subset _ _ h2
    have h4 := List.of_mem_filter h3
    exact ⟨h4, by simpa using h1⟩

/-- C9 witness: the scan-selection implication applied to a concrete
violating document. -/
theorem scannerRepairFrameWitness :
    badBuiltDoc.essentiaProfileBuilt = true ∧ hasUsableMatrix badBuiltDoc = false :=
  scannerRepairFrame.2 [badBuiltDoc] 500 badBuiltDoc (by decide)

/-- C1 counterexample: the legacy migration sets the built flag on a
document whose migrated trackMatrix has length one, below the batch
default target track count of ten used by the batch driver — so a built-setting operation
of the system does not require length at least the target. -/
theorem builtTargetInvariantCounterexample :
    (migrateLegacyDoc 0 false legacyDoc1).essentiaProfileBuilt = true
    ∧ ((migrateLegacyDoc 0 false legacyDoc1).essentiaAudioProfile.map
        (fun p => p.trackMatrix.length)) = some 1
    ∧ 1 < 10 := by decide

/-- C1 amended: the two built-setting operations of the batch driver do require
the persisted matrix to reach the target (the write path additionally
requires a confirmed write, the marked-built shortcut requires the staged
length to reach the target), but the migration sets built merely when the
legacy matrix is non-empty; hence every built-setting operation guarantees
a non-empty persisted trackMatrix, while length at least targetTrackCount
holds only for the batch operations. -/
theorem builtSettersAmended :
    (∀ m t k, profileWriteFlagDecision m t k = FlagAction.setBuilt → 0 < m ∧ k ≤ t)
    ∧ (∀ (sLen mt : Nat) (b : Bool), markedBuiltGuard sLen mt b = true →
        mt ≤ sLen ∧ b = false)
    ∧ (∀ (now : Nat) (ro : Bool) (d : ArtistDoc), d.essentiaProfileBuilt = false →
        (migrateLegacyDoc now ro d).essentiaProfileBuilt = true →
        ∃ p, (migrateLegacyDoc now ro d).essentiaAudioProfile = some p
          ∧ p.trackMatrix ≠ []) := by
  refine ⟨?_, ?_, ?_⟩
  · intro m t k h
    unfold profileWriteFlagDecision at h
    by_cases h1 : 0 < m ∧ k ≤ t
    · exact h1
    · rw [if_neg h1] at h
      by_cases h2 : 0 < m ∧ 0 < t
      · rw [if_pos h2] at h
        exact absurd h (by simp)
      · rw [if_neg h2] at h
        exact absurd h (by simp)
  · intro sLen mt b h
    unfold markedBuiltGuard at h
    simp only [Bool.and_eq_true, decide_eq_true_eq, Bool.not_eq_true'] at h
    exact h
  · intro now ro d hb h
    unfold migrateLegacyDoc at h ⊢
    cases htm : d.essentiaTrackMatrix with
    | none =>
      simp only [htm] at h
      rw [hb] at h
      exact absurd h (by simp)
    | some top =>
      simp only [htm] at h ⊢
      by_cases hl : top.length = 0
      · rw [if_pos hl] at h
        rw [hb] at h
        exact absurd h (by simp)
      · have htop : top ≠ [] := by
          intro hnil
          exact hl (by simp [hnil])
        rw [if_neg hl]
        cases hprof : d.essentiaAudioProfile with
        | none =>
          simp only [hprof]
          exact ⟨_, rfl, htop⟩
        | some q =>
          simp only [hprof]
          exact ⟨_, rfl, htop⟩

/-- C1 witness: the write-path implication applied at a concrete confirmed
write reaching the target. -/
theorem builtSettersAmendedWitness : 0 < 1 ∧ 10 ≤ 12 :=
  builtSettersAmended.1 1 12 10 (by decide)

/-- C4 (defect exhibited): a staged aggregate holding six of ten tracks is
resumed; the driver requests only the remaining four tracks and the
analyzer supplies four fresh successes, yet the written profile contains
only the four new tracks (the original six are discarded by the wholesale
profile replacement), and the aggregate is saved as staged rather than
reaching built even though six plus four meets the target. -/
theorem resumeDiscardsStagedTracks :
    (batchArtistStep 10 false false 6 resumeAnalyze stagedSixDoc).2.2 = 4
    ∧ (batchArtistStep 10 false false 6 resumeAnalyze stagedSixDoc).2.1
        = BatchOutcome.stagedSaved
    ∧ (batchArtistStep 10 false false 6 resumeAnalyze stagedSixDoc).1.essentiaProfileBuilt
        = false
    ∧ ((batchArtistStep 10 false false 6 resumeAnalyze stagedSixDoc).1.essentiaAudioProfile.map
        (fun p => p.trackMatrix.map (·.trackId))) = some [7, 8, 9, 10] := by decide

/-- C6 counterexample: with zero resolvable tracks and three known genre
tags the endpoint does return a partial success with an empty trackMatrix,
but the source tag of the genre mapping is "spotify", not the claimed "known". -/
theorem partialSuccessKnownTagCounterexample :
    (zeroProfileResponse true threeGenres
        (buildGenreMapping [] "Some Artist" threeGenres)).success = true
    ∧ (zeroProfileResponse true threeGenres
        (buildGenreMapping [] "Some Artist" threeGenres)).trackMatrix = []
    ∧ (buildGenreMapping [] "Some Artist" threeGenres).source ≠ "known"
    ∧ (buildGenreMapping [] "Some Artist" threeGenres).source = "spotify" := by decide

/-- C6 amended: with zero track profiles and a non-empty existingGenres
list the endpoint returns a partial success with success true, empty
trackMatrix and genreMapping.source = "spotify" (the tag the code uses for
explicitly supplied known genres); and the derivation priority is existing
genres first, then audio-feature inference ("audio_analysis"), then
artist-name heuristics ("name_inference"), else "none". -/
theorem partialSuccessAmended :
    (∀ (genres : List String) (artist : String) (hadTracks : Bool), genres ≠ [] →
        (zeroProfileResponse hadTracks genres (buildGenreMapping [] artist genres)).success
            = true
        ∧ (zeroProfileResponse hadTracks genres
            (buildGenreMapping [] artist genres)).partFlag = true
        ∧ (zeroProfileResponse hadTracks genres
            (buildGenreMapping [] artist genres)).trackMatrix = []
        ∧ (buildGenreMapping [] artist genres).source = "spotify")
    ∧ (∀ (profiles : List TrackProfile) (artist : String),
        (inferGenresFromTracks profiles artist ≠ [] →
          (buildGenreMapping profiles artist []).source = "audio_analysis")
        ∧ (inferGenresFromTracks profiles artist = [] →
            inferGenreFromArtistName artist ≠ [] →
            (buildGenreMapping profiles artist []).source = "name_inference")
        ∧ (inferGenresFromTracks profiles artist = [] →
            inferGenreFromArtistName artist = [] →
            (buildGenreMapping profiles artist []).source = "none")) := by
  constructor
  · intro genres artist hadTracks hg
    have hlen : 0 < genres.length := List.length_pos.mpr hg
    have htake : 0 < (genres.take 5).length := by
      rw [List.length_take]
      omega
    simp [buildGenreMapping, zeroProfileResponse, if_pos hlen, if_pos htake]
  · intro profiles artist
    have h0 : ¬ (0 < ([] : List String).length) := by simp
    refine ⟨?_, ?_, ?_⟩
    · intro hne
      have hp : 0 < (inferGenresFromTracks profiles artist).length :=
        List.length_pos.mpr hne
      simp only [buildGenreMapping, if_neg h0, if_pos hp]
    · intro he hne
      have hp : ¬ 0 < (inferGenresFromTracks profiles artist).length := by
        simp [he]
      have hn : 0 < (inferGenreFromArtistName artist).length :=
        List.length_pos.mpr hne
      simp only [buildGenreMapping, if_neg h0, if_neg hp, if_pos hn]
    · intro he hn
      have hp : ¬ 0 < (inferGenresFromTracks profiles artist).length := by
        simp [he]
      have hq : ¬ 0 < (inferGenreFromArtistName artist).length := by
        simp [hn]
      simp only [buildGenreMapping, if_neg h0, if_neg hp, if_neg hq]

/-- C6 witness: the amended statement applied at the three known genre
tags. -/
theorem partialSuccessAmendedWitness :
    (zeroProfileResponse true threeGenres
        (buildGenreMapping [] "Some Artist" threeGenres)).success = true :=
  (partialSuccessAmended.1 threeGenres "Some Artist" true (by decide)).1

/-- C5 (defect exhibited): under the soundcloud_primary diagnostic a known
Spotify preview is suppressed and remembered, at least one relaxed
SoundCloud query (the artist-only query) is attempted, yet when every
alternative provider yields no candidate the suppressed reference is not
restored: the outcome carries no preview and no audio source and the
restore counter stays zero. Moreover the restore branch of lines 677-682
is dead code for every configuration and state, because its guard demands
soundcloudPrimary together with the negation of the line-434
forceSoundCloudTest, which soundcloudPrimary itself implies. -/
theorem suppressedSpotifyNeverRestored :
    (c5Run.spotifyPreviewSuppressed = 1
      ∧ c5Run.originalSpotifyPreview = some "https://p.scdn.co/mp3-preview/abc"
      ∧ "artistOnly" ∈ c5Run.scSites
      ∧ c5Run.previewUrl = none
      ∧ c5Run.audioSource = none
      ∧ c5Run.spotifySuppressedRestored = 0)
    ∧ (∀ (cfg : AcqConfig) (st : AcqState), restoreSpotifyPreviewStep cfg st = st) := by
  constructor
  · decide
  · intro cfg st
    unfold restoreSpotifyPreviewStep AcqConfig.forceSC
    cases hsp : cfg.soundcloudPrimary
    · simp [hsp]
    · simp [hsp]

/-- C10: a track that is both in the top-tracks list and in a recent
album track list lands in both round slices, is analyzed twice, and the
returned and persisted trackMatrix carries two entries with the same
trackId — one without and one with the recent-release flag. -/
theorem duplicateTrackIdInMatrix :
    c10Run.map (·.trackId) = [7, 7]
    ∧ c10Run.map (·.isRecentRelease) = [false, true]
    ∧ ¬ (c10Run.map (·.trackId)).Nodup
    ∧ (upsertArtistGenreProfile none "dj x" none c10Run gm0).trackMatrix.map (·.trackId)
        = [7, 7] := by decide

/-- Helper: a round loop equals the filterMap of the per-track caught
bodies, so each track contributes independently and a failing body skips
exactly that track. -/
theorem roundLoopIsFilterMap (body : Track → Except String (Option TrackProfile))
    (tracks : List Track) :
    roundLoop body tracks
      = tracks.filterMap (fun t => effectiveResult (body t)) := by
  induction tracks with
  | nil => rfl
  | cons t rest ih =>
    simp only [roundLoop, List.filterMap_cons]
    cases h : body t with
    | error e => simp [h, effectiveResult, ih]
    | ok v =>
      cases v with
      | none => simp [h, effectiveResult, ih]
      | some p => simp [h, effectiveResult, ih]

/-- Helper: on the balanced configuration every suppression, SoundCloud
test, apple_primary and restore step is the identity, so the engine is the
composition of the five balanced provider steps. -/
theorem acquireBalancedReduction (provs : Providers)
    (simplifyName : String → String) (t : Track) :
    acquirePreviewForTrack cfgBalanced provs simplifyName t
      = altAggregatorStep provs t (soundcloudExplicitStep cfgBalanced provs t
          (appleBroadStep cfgBalanced provs t (appleExactStep cfgBalanced provs t
            (spotifyRecoveryStep cfgBalanced provs t (initAcqState t))))) := by
  have hsp : cfgBalanced.soundcloudPrimary = false := by decide
  have hap : cfgBalanced.useApplePrimary = false := by decide
  have hfc : cfgBalanced.forceSC = false := by decide
  have hbf : cfgBalanced.bodyForceSoundCloudTest = false := rfl
  have h1 : ∀ st, suppressSpotifyStep cfgBalanced st = st := by
    intro st
    unfold suppressSpotifyStep
    rw [hsp]
    simp
  have h2 : ∀ st, forcedSuppressStep cfgBalanced st = st := by
    intro st
    unfold forcedSuppressStep
    rw [hbf]
    simp
  have h3 : ∀ st, earlySoundCloudStep cfgBalanced provs t st = st := by
    intro st
    unfold earlySoundCloudStep
    rw [hfc]
    simp
  have h4 : ∀ st, relaxedSoundCloudStep cfgBalanced provs simplifyName t st = st := by
    intro st
    unfold relaxedSoundCloudStep
    rw [hfc, hsp]
    simp
  have h5 : ∀ st, applePrimaryStep cfgBalanced provs t st = st := by
    intro st
    unfold applePrimaryStep
    rw [hap]
    simp
  have h7 : ∀ st, recoveryDisabledFlagStep cfgBalanced st = st := by
    intro st
    unfold recoveryDisabledFlagStep
    rw [hap, hfc, hsp]
    simp
  have h12 : ∀ st, applePrimaryFallbackStep cfgBalanced t st = st := by
    intro st
    unfold applePrimaryFallbackStep
    rw [hap]
    simp
  have h13 : ∀ st, restoreApplePreviewStep cfgBalanced st = st := by
    intro st
    unfold restoreApplePreviewStep
    rw [hsp, hfc]
    simp
  have h14 : ∀ st, restoreSpotifyPreviewStep cfgBalanced st = st := by
    intro st
    unfold restoreSpotifyPreviewStep
    rw [hsp]
    simp
  unfold acquirePreviewForTrack
  simp only [h1, h2, h3, h4, h5, h7, h12, h13, h14]

/-- C8: failures are contained at the smallest scope: (i) every round loop
equals the filterMap of its per-track caught bodies, so a resolution or
extraction failure of one track skips only that track and cannot abort
the round, the artist orchestration or the handler; (ii) providers that
always fail with network errors produce the same resolution outcome as
providers that always report no candidate, and an always-failing extractor
yields an empty profile list instead of an error; (iii) on the balanced
path the resolution returns a null audio reference only when every
provider step of the strategy reported no effective candidate. -/
theorem perTrackFailureContainment :
    (∀ (body : Track → Except String (Option TrackProfile)) (tracks : List Track),
        roundLoop body tracks = tracks.filterMap (fun t => effectiveResult (body t)))
    ∧ (outcomeTriple (acquirePreviewForTrack cfgBalanced provsAllThrow (fun n => n) noPreviewTrack)
          = outcomeTriple (acquirePreviewForTrack cfgBalanced provsAllNone (fun n => n) noPreviewTrack)
      ∧ outcomeTriple (acquirePreviewForTrack cfgForcedSC provsAllThrow (fun n => n) spotifyPreviewTrack)
          = outcomeTriple (acquirePreviewForTrack cfgForcedSC provsAllNone (fun n => n) spotifyPreviewTrack)
      ∧ roundLoop (processTrack cfgBalanced provsAllThrow (fun n => n) (fun _ => .error "extract") 1)
          [noPreviewTrack, dualTrack, spotifyPreviewTrack] = [])
    ∧ (∀ (provs : Providers) (simplifyName : String → String) (t : Track),
        t.previewUrl = none →
        (acquirePreviewForTrack cfgBalanced provs simplifyName t).previewUrl = none →
        effectiveResult (provs.spotifyRecovery t) = none
        ∧ (t.artistNames.isEmpty = false →
            effectiveResult (provs.appleExact (primaryArtist t) t.name) = none
            ∧ effectiveResult (provs.appleBroad (primaryArtist t) t.name) = none)
        ∧ effectiveResult (provs.scSearch (primaryArtist t) t.name) = none
        ∧ effectiveResult (provs.altSource (primaryArtist t) t.name) = none) := by
  refine ⟨roundLoopIsFilterMap, ⟨by decide, by decide, by decide⟩, ?_⟩
  intro provs simplifyName t h0 hres
  rw [acquireBalancedReduction] at hres
  have hinit : (initAcqState t).previewUrl = none := h0
  have cst : cfgBalanced.spotifyToken = true := rfl
  have ccl : cfgBalanced.soundcloudClientId = true := rfl
  have cap : cfgBalanced.useApplePrimary = false := by decide
  have cfc : cfgBalanced.forceSC = false := by decide
  have csp : cfgBalanced.soundcloudPrimary = false := by decide
  cases hemp : t.artistNames.isEmpty <;>
    rcases hrec : effectiveResult (provs.spotifyRecovery t) with _ | u0 <;>
      rcases h2 : effectiveResult (provs.appleExact (primaryArtist t) t.name) with _ | u2 <;>
        rcases h3 : effectiveResult (provs.appleBroad (primaryArtist t) t.name) with _ | u3 <;>
          rcases h4 : effectiveResult (provs.scSearch (primaryArtist t) t.name) with _ | u4 <;>
            rcases h5 : effectiveResult (provs.altSource (primaryArtist t) t.name) with _ | u5 <;>
              simp only [spotifyRecoveryStep, appleExactStep, appleBroadStep,
                soundcloudExplicitStep, altAggregatorStep, hinit, hrec, h2, h3, h4, h5, hemp,
                cst, ccl, cap, cfc, csp, Option.isNone_none, Option.isNone_some,
                Bool.not_false, Bool.true_and, Bool.and_true, Bool.and_self, if_true,
                if_false, Bool.false_eq_true, Bool.true_eq_false] at hres <;>
              first
                | exact hres.elim
                | exact Option.noConfusion hres
                | exact ⟨rfl, fun hf => ⟨rfl, rfl⟩, rfl, rfl⟩
                | exact ⟨rfl, ⟨fun hf => Bool.noConfusion hf, ⟨rfl, rfl⟩⟩⟩

/-- C8 witness: the exhaustion implication applied to a concrete track and
the all-none providers. -/
theorem perTrackFailureContainmentWitness :
    effectiveResult (provsAllNone.spotifyRecovery noPreviewTrack) = none
    ∧ effectiveResult
        (provsAllNone.scSearch (primaryArtist noPreviewTrack) noPreviewTrack.name) = none :=
  ⟨(perTrackFailureContainment.2.2 provsAllNone (fun n => n) noPreviewTrack rfl (by decide)).1,
   (perTrackFailureContainment.2.2 provsAllNone (fun n => n) noPreviewTrack rfl
      (by decide)).2.2.1⟩

end Essentia
